import Mathlib

/-
Shallow embedding of src/audio_capture.cc (AirboZH/audiocap-nodejs).

The capture object wraps a CoreAudio HAL output unit used as a loopback
tap.  Platform calls (AudioObjectGetPropertyData, AudioComponentInstanceNew,
AudioUnitSetProperty, AudioUnitRender, ...) are modelled as environment
inputs: their status codes and out-parameters are parameters of the
embedded functions, and the embedded functions reproduce exactly what the
C++ member functions do with those results.
-/

namespace AudioCap

/-- Platform status code (`OSStatus`, a signed 32-bit integer in CoreAudio). -/
abbrev OSStatus := Int

/-- The success status code. -/
def noErr : OSStatus := 0

/-- State of the `Napi::ThreadSafeFunction tsfn` member (the cross-thread
handoff channel).  `absent` models a default-constructed wrapper holding a
null handle (falsy in `if (tsfn)`); `opened` models a handle created by
`ThreadSafeFunction::New`; `released` models a handle on which `Release()`
was called.  `Release()` does not null the wrapper, so a released handle is
still truthy in `if (tsfn)`. -/
inductive ChanState where
  | absent
  | opened
  | released
deriving DecidableEq, Repr

/-- Truthiness of the `tsfn` member in a C++ `if (tsfn)` test: the wrapped
handle is non-null exactly when the channel was ever created. -/
def ChanState.isSet : ChanState → Bool
  | ChanState.absent => false
  | ChanState.opened => true
  | ChanState.released => true

/-- The mutable fields of the `AudioCapture` object
(src/audio_capture.cc lines 11-14). -/
structure AudioCapture where
  outputDevice : Nat
  audioUnit : Option Nat
  chan : ChanState
  isCapturing : Bool
deriving DecidableEq, Repr

/-- The constructor (line 98-101): `isCapturing(false)`; `outputDevice` and
`audioUnit` are left uninitialized in the source and are modelled as 0 and
`none`; the default-constructed `tsfn` holds a null handle (`absent`). -/
def newCapture : AudioCapture :=
  { outputDevice := 0
    audioUnit := none
    chan := ChanState.absent
    isCapturing := false }

/-- Errors thrown by `StartCapture` via `ThrowAsJavaScriptException`.
`alreadyCapturing` carries message "Already capturing" (line 115),
`callbackRequired` carries "Callback function required" (line 121),
`deviceUnavailable` carries "Failed to get default output device"
(line 153), `audioUnitFailed` carries "Failed to create audio unit"
(line 171). -/
inductive StartError where
  | alreadyCapturing
  | callbackRequired
  | deviceUnavailable
  | audioUnitFailed
deriving DecidableEq, Repr

/-- Environment results of the platform calls made during `StartCapture`:
the status each call returns and the out-parameters it writes.  The seven
statuses from `disableOutputStatus` on are the results of the calls at
lines 177-233; in the source each is assigned to the local `status`
variable and then overwritten without ever being inspected. -/
structure StartEnv where
  defaultDeviceStatus : OSStatus
  defaultDeviceId : Nat
  instanceNewStatus : OSStatus
  newUnitHandle : Nat
  disableOutputStatus : OSStatus
  enableInputStatus : OSStatus
  setDeviceStatus : OSStatus
  setFormatStatus : OSStatus
  setCallbackStatus : OSStatus
  initStatus : OSStatus
  outputStartStatus : OSStatus
deriving DecidableEq, Repr

/-- `AudioCapture::StartCapture` (lines 109-237).  Returns the thrown error
(if any) together with the state of the object's fields when the call
returns; a thrown error does not roll back field mutations already made.
Steps in source order: check `isCapturing`; check the callback argument;
create `tsfn`; resolve the default output device; create the audio unit;
then seven further platform calls whose statuses are dead stores; finally
`isCapturing = true`. -/
def StartCapture (s : AudioCapture) (argCount : Nat) (arg0IsFunction : Bool)
    (e : StartEnv) : Option StartError × AudioCapture :=
  if s.isCapturing then
    (some StartError.alreadyCapturing, s)
  else if argCount < 1 ∨ arg0IsFunction = false then
    (some StartError.callbackRequired, s)
  else
    -- tsfn = Napi::ThreadSafeFunction::New(...)  (line 126)
    let s1 : AudioCapture := { s with chan := ChanState.opened }
    if e.defaultDeviceStatus ≠ noErr then
      -- throw "Failed to get default output device"; tsfn is NOT released
      (some StartError.deviceUnavailable, s1)
    else
      let s2 : AudioCapture := { s1 with outputDevice := e.defaultDeviceId }
      if e.instanceNewStatus ≠ noErr then
        -- throw "Failed to create audio unit"; tsfn is NOT released
        (some StartError.audioUnitFailed, s2)
      else
        let s3 : AudioCapture := { s2 with audioUnit := some e.newUnitHandle }
        -- lines 176-233: each status is stored into the local variable and
        -- overwritten by the next call without being checked
        let _status := e.disableOutputStatus
        let _status := e.enableInputStatus
        let _status := e.setDeviceStatus
        let _status := e.setFormatStatus
        let _status := e.setCallbackStatus
        let _status := e.initStatus
        let _status := e.outputStartStatus
        (none, { s3 with isCapturing := true })

/-- `AudioCapture::StopCapture` (lines 239-262).  No throw path exists: the
function is total and returns `undefined` on every exit, so it is modelled
as a plain state transformer.  If not capturing it returns at once;
otherwise it stops/uninitializes/disposes the unit (statuses absorbed, the
stale handle value is kept in the member), releases `tsfn` if set, and
clears `isCapturing`. -/
def StopCapture (s : AudioCapture) : AudioCapture :=
  if s.isCapturing = false then
    s
  else
    -- if (audioUnit) { AudioOutputUnitStop; AudioUnitUninitialize;
    --                  AudioComponentInstanceDispose }  (lines 248-253)
    let s1 : AudioCapture :=
      if s.chan.isSet then { s with chan := ChanState.released } else s
    { s1 with isCapturing := false }

/-- The `AudioBufferList` prepared at the top of `HandleAudioInput`
(lines 45-52): one buffer, 2 channels, declared byte size
`inNumberFrames * 4` (the comment at line 48 reads "2 channels * 2
bytes/sample"), backed by a fresh `Float32[inNumberFrames * 2]` scratch
allocation (`allocFloatCount` slots, i.e. `inNumberFrames * 8` bytes). -/
structure ScratchBufferList where
  mNumberBuffers : Nat
  mNumberChannels : Nat
  mDataByteSize : Nat
  allocFloatCount : Nat
deriving DecidableEq, Repr

/-- Builds the scratch buffer list exactly as lines 45-52 do. -/
def mkScratchBufferList (inNumberFrames : Nat) : ScratchBufferList :=
  { mNumberBuffers := 1
    mNumberChannels := 2
    mDataByteSize := inNumberFrames * 4
    allocFloatCount := inNumberFrames * 2 }

/-- Observable outcome of one render-callback invocation: the status the
callback returns to the audio subsystem, and the bytes enqueued to the
handoff channel for consumer delivery, if any.  Buffer delivery is the
only consumer-visible effect of the callback; no other event kind exists. -/
structure RenderResult where
  retStatus : OSStatus
  delivered : Option (List Nat)
deriving DecidableEq, Repr

/-- `AudioCapture::HandleAudioInput` (lines 39-83).  `renderStatus` is the
status returned by `AudioUnitRender` and `scratchAfterRender` is the byte
content of the scratch allocation after that call (both environment
inputs).  If the render succeeded and `tsfn` is truthy, the code copies
`inNumberFrames * 2 * sizeof(Float32)` bytes out of the scratch buffer
into a fresh `AudioData` and passes it to `tsfn.NonBlockingCall`.
Modelled from the spec: `NonBlockingCall` on a released channel does not
schedule a consumer invocation (the N-API enqueue on a closing
thread-safe function is rejected; src/ only shows the `if (tsfn)` guard),
so delivery happens only when the channel is `opened`.  The callback
always returns `renderStatus`. -/
def HandleAudioInput (chan : ChanState) (inNumberFrames : Nat)
    (renderStatus : OSStatus) (scratchAfterRender : List Nat) : RenderResult :=
  let _bufferList := mkScratchBufferList inNumberFrames
  if renderStatus = noErr ∧ chan.isSet = true then
    let bufferSize := inNumberFrames * 2 * 4
    let audioData := scratchAfterRender.take bufferSize
    { retStatus := renderStatus
      delivered := if chan = ChanState.opened then some audioData else none }
  else
    { retStatus := renderStatus, delivered := none }

/-- A state in which a capture is active, as produced by a successful
`StartCapture`. -/
def capturingState : AudioCapture :=
  { outputDevice := 3
    audioUnit := some 7
    chan := ChanState.opened
    isCapturing := true }

/-- An environment in which every platform call succeeds. -/
def okEnv : StartEnv :=
  { defaultDeviceStatus := 0
    defaultDeviceId := 3
    instanceNewStatus := 0
    newUnitHandle := 7
    disableOutputStatus := 0
    enableInputStatus := 0
    setDeviceStatus := 0
    setFormatStatus := 0
    setCallbackStatus := 0
    initStatus := 0
    outputStartStatus := 0 }

/-- An environment in which the default-output-device query fails with
status -1 and everything else would succeed. -/
def deviceFailEnv : StartEnv :=
  { okEnv with defaultDeviceStatus := -1 }

/-- An environment in which device resolution and unit creation succeed but
every later stream-negotiation step (disable output, enable input, bind
device, set stream format, register render callback, initialize, start)
fails with status -1. -/
def negotiationFailEnv : StartEnv :=
  { okEnv with
    disableOutputStatus := -1
    enableInputStatus := -1
    setDeviceStatus := -1
    setFormatStatus := -1
    setCallbackStatus := -1
    initStatus := -1
    outputStartStatus := -1 }

/-- C1: a fresh session started with a valid callback while the
default-output-device query fails (status -1) surfaces the device error
and stays out of `Capturing`, but the thread-safe consumer callback
channel created at line 126 is left `opened` — it is never released on
this error path, contradicting the claim that every partially-acquired
resource is released before the error is surfaced. -/
theorem startCapture_device_failure_leaks_channel :
    (StartCapture newCapture 1 true deviceFailEnv).1
      = some StartError.deviceUnavailable ∧
    (StartCapture newCapture 1 true deviceFailEnv).2.isCapturing = false ∧
    (StartCapture newCapture 1 true deviceFailEnv).2.chan
      = ChanState.opened := by
  decide

/-- C2: a fresh session started while device resolution and unit creation
succeed but every later stream-negotiation step (disable output, enable
input, bind device, set stream format, register render callback,
initialize, start) returns status -1 nevertheless returns without error
and transitions the session to `Capturing`: those statuses are dead
stores, never surfaced as setup errors. -/
theorem startCapture_ignores_negotiation_failures :
    (StartCapture newCapture 1 true negotiationFailEnv).1 = none ∧
    (StartCapture newCapture 1 true negotiationFailEnv).2.isCapturing
      = true := by
  decide

/-- C3: the scratch buffer list built for a render-callback invocation with
`frameCount = 1` allocates `1 * 2` float samples (8 bytes) but declares a
byte size of `1 * 4 = 4`, not the `frameCount * 8` required by the
negotiated stereo 32-bit-float stream format. -/
theorem scratch_declared_size_mismatch :
    (mkScratchBufferList 1).allocFloatCount = 1 * 2 ∧
    (mkScratchBufferList 1).mDataByteSize = 1 * 4 ∧
    (mkScratchBufferList 1).mDataByteSize ≠ 1 * 8 := by
  decide

/-- C4: on a render-callback invocation whose render step succeeds and
whose buffer is enqueued on the open channel, the delivered buffer is a
copy of the scratch buffer rendered into (all `frameCount * 8` bytes of
it), so its byte length equals `frameCount * 2 * 4`. -/
theorem delivered_buffer_is_exact_copy (inNumberFrames : Nat)
    (scratch : List Nat) (h : scratch.length = inNumberFrames * 8) :
    (HandleAudioInput ChanState.opened inNumberFrames noErr scratch).delivered
      = some scratch ∧
    scratch.length = inNumberFrames * 2 * 4 := by
  constructor
  · unfold HandleAudioInput
    simp [ChanState.isSet, noErr]
    omega
  · omega

/-- C4 witness: a concrete invocation with one frame and an 8-byte scratch
buffer delivers exactly those 8 bytes. -/
theorem delivered_buffer_is_exact_copy_witness :
    (HandleAudioInput ChanState.opened 1 noErr
        [10, 11, 12, 13, 14, 15, 16, 17]).delivered
      = some [10, 11, 12, 13, 14, 15, 16, 17] ∧
    ([10, 11, 12, 13, 14, 15, 16, 17] : List Nat).length = 1 * 2 * 4 :=
  delivered_buffer_is_exact_copy 1 [10, 11, 12, 13, 14, 15, 16, 17]
    (by decide)

/-- C5: calling `StartCapture` while the session is already capturing
throws `Already capturing` and returns the object state entirely
unchanged — audio unit, handoff channel and `isCapturing` flag included —
whatever the argument and platform environment. -/
theorem startCapture_already_capturing_unchanged (s : AudioCapture)
    (argCount : Nat) (arg0IsFunction : Bool) (e : StartEnv)
    (h : s.isCapturing = true) :
    StartCapture s argCount arg0IsFunction e
      = (some StartError.alreadyCapturing, s) := by
  unfold StartCapture
  simp [h]

/-- C5 witness: a concrete capturing state is returned unchanged together
with the `alreadyCapturing` error. -/
theorem startCapture_already_capturing_unchanged_witness :
    StartCapture capturingState 1 true okEnv
      = (some StartError.alreadyCapturing, capturingState) :=
  startCapture_already_capturing_unchanged capturingState 1 true okEnv rfl

/-- C6: after `StopCapture` on a capturing session, a render-callback
invocation delivers nothing to the consumer, whatever its frame count,
render status and rendered bytes: the channel is `released` (or was never
set) and post-close enqueues are not scheduled. -/
theorem no_delivery_after_stop (s : AudioCapture)
    (h : s.isCapturing = true) (inNumberFrames : Nat)
    (renderStatus : OSStatus) (scratch : List Nat) :
    (HandleAudioInput (StopCapture s).chan inNumberFrames renderStatus
        scratch).delivered = none := by
  have hc : (StopCapture s).chan ≠ ChanState.opened := by
    unfold StopCapture
    simp [h]
    cases hcs : s.chan <;> simp [ChanState.isSet, hcs]
  unfold HandleAudioInput
  split
  · simp [hc]
  · rfl

/-- C6 witness: stopping the concrete capturing session, then firing a
render callback with one frame of successfully rendered audio, delivers
nothing. -/
theorem no_delivery_after_stop_witness :
    (HandleAudioInput (StopCapture capturingState).chan 1 noErr
        [10, 11, 12, 13, 14, 15, 16, 17]).delivered = none :=
  no_delivery_after_stop capturingState rfl 1 noErr
    [10, 11, 12, 13, 14, 15, 16, 17]

/-- C7: `StopCapture` on an idle session returns the state unchanged; and
`StopCapture` is a total state transformer with no error outcome, which is
how the source's absence of any throw path is embedded. -/
theorem stopCapture_idle_noop (s : AudioCapture)
    (h : s.isCapturing = false) : StopCapture s = s := by
  unfold StopCapture
  simp [h]

/-- C7 witness: stopping a freshly constructed (idle) capture object
leaves it exactly as constructed. -/
theorem stopCapture_idle_noop_witness : StopCapture newCapture = newCapture :=
  stopCapture_idle_noop newCapture rfl

/-- C8: every render-callback invocation returns to the audio subsystem
exactly the status `AudioUnitRender` produced, whatever the channel state
and whether or not a buffer was enqueued. -/
theorem handle_returns_render_status (chan : ChanState)
    (inNumberFrames : Nat) (renderStatus : OSStatus)
    (scratch : List Nat) :
    (HandleAudioInput chan inNumberFrames renderStatus scratch).retStatus
      = renderStatus := by
  unfold HandleAudioInput
  split <;> rfl

/-- C9: a render-callback invocation whose render step returns a
non-success status enqueues nothing to the handoff channel — the failed
quantum is silently dropped, and no other consumer-visible event exists
in the callback. -/
theorem handle_render_failure_drops_frame (chan : ChanState)
    (inNumberFrames : Nat) (renderStatus : OSStatus)
    (h : renderStatus ≠ noErr) (scratch : List Nat) :
    (HandleAudioInput chan inNumberFrames renderStatus scratch).delivered
      = none := by
  unfold HandleAudioInput
  simp [h]

/-- C9 witness: a render failure with status -1 on an open channel
delivers nothing. -/
theorem handle_render_failure_drops_frame_witness :
    (HandleAudioInput ChanState.opened 4 (-1)
        [10, 11, 12, 13, 14, 15, 16, 17]).delivered = none :=
  handle_render_failure_drops_frame ChanState.opened 4 (-1) (by decide)
    [10, 11, 12, 13, 14, 15, 16, 17]

/-- C10: `StartCapture` tests `isCapturing` before validating its
argument: while capturing, the error is `alreadyCapturing` even for a
missing or non-function callback argument; conversely the
`callbackRequired` error can only arise with `isCapturing` false. -/
theorem startCapture_state_check_precedes_arg_check (s : AudioCapture)
    (argCount : Nat) (arg0IsFunction : Bool) (e : StartEnv) :
    (s.isCapturing = true →
      (StartCapture s argCount arg0IsFunction e).1
        = some StartError.alreadyCapturing) ∧
    ((StartCapture s argCount arg0IsFunction e).1
        = some StartError.callbackRequired → s.isCapturing = false) := by
  constructor
  · intro h
    unfold StartCapture
    simp [h]
  · intro h
    by_contra hcap
    have hcap2 : s.isCapturing = true := by
      cases hs : s.isCapturing
      · exact absurd hs hcap
      · rfl
    rw [show StartCapture s argCount arg0IsFunction e
          = (some StartError.alreadyCapturing, s) by
        unfold StartCapture; simp [hcap2]] at h
    simp at h

/-- C10 witness: calling start on the concrete capturing state with no
argument at all still reports `alreadyCapturing`, not the
missing-callback error. -/
theorem startCapture_state_check_precedes_arg_check_witness :
    (StartCapture capturingState 0 false okEnv).1
      = some StartError.alreadyCapturing :=
  (startCapture_state_check_precedes_arg_check capturingState 0 false
    okEnv).1 rfl

end AudioCap
